import Mathlib

/-!
Verification of the MacBridge build agent (src/index.js and the variant in
src/unnamed/part_000) against its natural-language specification.

The agent's externally-effectful steps (filesystem probes, subprocess exits,
HTTP responses, uploads) are modelled by an explicit environment record that
fixes the outcome of each effect; the control flow of each source function is
then translated branch by branch into a pure Lean function over that
environment.
-/

namespace MacBridge

/-- Terminal status of a job result, as posted by `reportResult`
    (src/index.js:83-106): the `status` field is `"success"` or `"failed"`. -/
inductive Status where
  | success
  | failed
deriving DecidableEq, Repr

/-- The JSON body `{ job_id, status, output_url, error }` built by
    `reportResult` (src/index.js:84), restricted to the fields the build
    functions actually decide (the job id is threaded unchanged). -/
structure ReportPayload where
  status : Status
  outputUrl : Option String
  error : Option String
deriving DecidableEq, Repr

/-- Which build variant a run of the strategy selector invoked:
    `flutter build ios --release` or `flutter build ios --simulator`. -/
inductive BuildKind where
  | signedRelease
  | simulator
deriving DecidableEq, Repr

/-- Outcomes of every external effect the build pipeline performs, fixed up
    front so the source control flow becomes a pure function.  Field meanings:
    presence of the three signing files at the project root
    (src/index.js:209-213), success of the `security import` / profile-copy
    `execSync` calls (src/index.js:224-226), exit status of each `flutter
    build` invocation, presence of the expected `Runner.app` build product,
    and the outcome of the Google Drive upload (src/index.js:108-157). -/
structure BuildEnv where
  certPresent : Bool
  profilePresent : Bool
  passPresent : Bool
  certImportOk : Bool
  certImportErrMsg : String
  profileInstallOk : Bool
  profileInstallErrMsg : String
  releaseBuildOk : Bool
  releaseErrMsg : String
  releaseAppPresent : Bool
  simBuildOk : Bool
  simErrMsg : String
  simAppPresent : Bool
  uploadOk : Bool
  uploadUrl : String
deriving DecidableEq, Repr

/-- Result of one build function: the payload handed to `reportResult`,
    and whether a Google Drive upload was attempted on the way. -/
structure BuildReport where
  payload : ReportPayload
  uploadAttempted : Bool
deriving DecidableEq, Repr

/-- `uploadToGoogleDrive` (src/index.js:108-157): the whole body is wrapped in
    `try/catch`; on any failure it logs and returns `null`, on success it
    returns the public download URL. -/
def uploadToGoogleDrive (env : BuildEnv) : Option String :=
  if env.uploadOk then some env.uploadUrl else none

/-- `runFlutterBuild` (src/index.js:159-178): run the release build; on a
    non-zero exit report failed with the error message; if `Runner.app`
    exists, copy it locally and report success with the literal string
    `"local-only"` as the output URL (no upload happens on this path);
    otherwise report failed with the fixed missing-artifact message. -/
def runFlutterBuild (env : BuildEnv) : BuildReport :=
  if !env.releaseBuildOk then
    { payload := ⟨Status.failed, none, some env.releaseErrMsg⟩, uploadAttempted := false }
  else if env.releaseAppPresent then
    { payload := ⟨Status.success, some "local-only", none⟩, uploadAttempted := false }
  else
    { payload := ⟨Status.failed, none, some "Runner.app not found after release build."⟩,
      uploadAttempted := false }

/-- `runFlutterSimulatorBuild` (src/index.js:180-200): run the simulator
    build; on failure report failed; if `Runner.app` exists, upload it to
    Google Drive and report success with whatever URL the upload returned
    (`null` when the upload failed — the status is still `"success"`);
    otherwise report failed with the fixed missing-artifact message. -/
def runFlutterSimulatorBuild (env : BuildEnv) : BuildReport :=
  if !env.simBuildOk then
    { payload := ⟨Status.failed, none, some env.simErrMsg⟩, uploadAttempted := false }
  else if env.simAppPresent then
    { payload := ⟨Status.success, uploadToGoogleDrive env, none⟩, uploadAttempted := true }
  else
    { payload := ⟨Status.failed, none, some "Runner.app not found after simulator build."⟩,
      uploadAttempted := false }

/-- `hasSigning` (src/index.js:213): all three signing files —
    `signing.p12`, `profile.mobileprovision`, `password.txt` — exist at the
    resolved project root. -/
def hasSigning (env : BuildEnv) : Bool :=
  env.certPresent && env.profilePresent && env.passPresent

/-- The `try` block of `signAndBuild` (src/index.js:222-227) before the
    build call: `security import` of the certificate, then the profile
    install (`mkdir -p` plus `cp` into the provisioning-profiles directory).
    The result is the error message of the first failing `execSync`, or
    `none` when both steps succeed. -/
def signingImport (env : BuildEnv) : Option String :=
  if !env.certImportOk then some env.certImportErrMsg
  else if !env.profileInstallOk then some env.profileInstallErrMsg
  else none

/-- Full outcome of one run of `signAndBuild`: the report, which build
    variants ran (in order), whether the signing import was attempted, and
    whether the missing-signing-files fallback notice was logged. -/
structure RunOutcome where
  report : BuildReport
  buildsRun : List BuildKind
  signingImportAttempted : Bool
  fallbackLogged : Bool
deriving DecidableEq, Repr

/-- `signAndBuild` (src/index.js:202-232): `simulator` mode goes straight to
    the simulator build; otherwise, if any signing file is missing, log the
    fallback notice and run the simulator build; otherwise attempt the
    certificate import and profile install inside `try`, running the signed
    release build on success and reporting a failed result with the import
    error on `catch` — no build runs after an import failure. -/
def signAndBuild (env : BuildEnv) (buildMode : String) : RunOutcome :=
  if buildMode == "simulator" then
    { report := runFlutterSimulatorBuild env
      buildsRun := [BuildKind.simulator]
      signingImportAttempted := false
      fallbackLogged := false }
  else if !hasSigning env then
    { report := runFlutterSimulatorBuild env
      buildsRun := [BuildKind.simulator]
      signingImportAttempted := false
      fallbackLogged := true }
  else
    match signingImport env with
    | none =>
      { report := runFlutterBuild env
        buildsRun := [BuildKind.signedRelease]
        signingImportAttempted := true
        fallbackLogged := false }
    | some errMsg =>
      { report := ⟨⟨Status.failed, none, some errMsg⟩, false⟩
        buildsRun := []
        signingImportAttempted := true
        fallbackLogged := false }

/-- A fully healthy environment, used for concrete witnesses. -/
def envAllOk : BuildEnv :=
  { certPresent := true, profilePresent := true, passPresent := true
    certImportOk := true, certImportErrMsg := "cert import error"
    profileInstallOk := true, profileInstallErrMsg := "profile install error"
    releaseBuildOk := true, releaseErrMsg := "release error", releaseAppPresent := true
    simBuildOk := true, simErrMsg := "sim error", simAppPresent := true
    uploadOk := true, uploadUrl := "https://drive.google.com/uc?id=f&export=download" }

end MacBridge

namespace MacBridge

/-- C1: whenever the three signing files are not simultaneously present,
    `signAndBuild` selects the unsigned/simulator build path regardless of
    the requested mode, attempts no signing import, and — for any mode other
    than `simulator` (in particular `release`) — logs the fallback notice.
    The downgrade is not a failure: the run proceeds to the simulator build. -/
theorem C1_missing_signing_falls_back (env : BuildEnv) (mode : String)
    (h : hasSigning env = false) :
    (signAndBuild env mode).buildsRun = [BuildKind.simulator] ∧
    (signAndBuild env mode).signingImportAttempted = false ∧
    (signAndBuild env mode).report = runFlutterSimulatorBuild env ∧
    (mode ≠ "simulator" → (signAndBuild env mode).fallbackLogged = true) := by
  unfold signAndBuild
  by_cases hm : mode == "simulator"
  · simp [hm]
    exact beq_iff_eq.mp hm
  · simp [hm, h]

/-- Witness for C1 at a concrete environment: release mode with the
    passphrase file missing falls back to the simulator build. -/
theorem C1_witness :
    hasSigning { envAllOk with passPresent := false } = false ∧
    (signAndBuild { envAllOk with passPresent := false } "release").buildsRun
        = [BuildKind.simulator] ∧
    (signAndBuild { envAllOk with passPresent := false } "release").fallbackLogged = true := by
  refine ⟨by decide, ?_, ?_⟩
  · exact (C1_missing_signing_falls_back { envAllOk with passPresent := false } "release"
      (by decide)).1
  · exact (C1_missing_signing_falls_back { envAllOk with passPresent := false } "release"
      (by decide)).2.2.2 (by decide)

/-- C2: in `release` mode with all three signing files present, when the
    certificate-import / profile-install step fails, the job is reported
    failed carrying the import error message, and no build of any kind (in
    particular no unsigned fallback) is run afterwards. -/
theorem C2_import_failure_is_fatal (env : BuildEnv) (errMsg : String)
    (hs : hasSigning env = true) (hi : signingImport env = some errMsg) :
    (signAndBuild env "release").report.payload.status = Status.failed ∧
    (signAndBuild env "release").report.payload.error = some errMsg ∧
    (signAndBuild env "release").buildsRun = [] ∧
    (signAndBuild env "release").signingImportAttempted = true := by
  unfold signAndBuild
  simp [hs, hi]

/-- Witness for C2 at a concrete environment: signing files present, the
    certificate import fails — the result is failed with the import error
    and no build ran. -/
theorem C2_witness :
    hasSigning { envAllOk with certImportOk := false } = true ∧
    signingImport { envAllOk with certImportOk := false }
        = some "cert import error" ∧
    (signAndBuild { envAllOk with certImportOk := false } "release").buildsRun
        = [] := by
  refine ⟨by decide, by decide, ?_⟩
  exact (C2_import_failure_is_fatal { envAllOk with certImportOk := false }
    "cert import error" (by decide) (by decide)).2.2.1

/-- An environment in which everything succeeds except the Google Drive
    upload: the simulator build runs, `Runner.app` exists, the upload fails. -/
def envUploadFails : BuildEnv := { envAllOk with uploadOk := false }

/-- C3 counterexample: with a successful simulator build whose artifact
    exists but whose upload fails, `runFlutterSimulatorBuild`
    (src/index.js:190-194) reports status `"success"` with `output_url`
    `null` and no error message — not the failed result with a
    build-succeeded-publish-failed error message that the claim requires. -/
theorem C3_counterexample :
    (signAndBuild envUploadFails "simulator").report.uploadAttempted = true ∧
    (signAndBuild envUploadFails "simulator").report.payload.status = Status.success ∧
    (signAndBuild envUploadFails "simulator").report.payload.outputUrl = none ∧
    (signAndBuild envUploadFails "simulator").report.payload.error = none := by
  decide

/-- C3 amended: when the build succeeds, the artifact exists, and its upload
    to the object store fails, the job outcome is still reported (every
    branch of the build functions posts exactly one result) — but as a
    success result whose `output_url` is `null` and whose error field is
    empty; the upload failure is only logged
    (`uploadToGoogleDrive` catches every error and returns `null`,
    src/index.js:153-156, and the caller reports `"success"` with that
    `null`, src/index.js:192-193). -/
theorem C3_amended_publish_failure_reported_as_success (env : BuildEnv)
    (hb : env.simBuildOk = true) (ha : env.simAppPresent = true)
    (hu : env.uploadOk = false) :
    (runFlutterSimulatorBuild env).uploadAttempted = true ∧
    (runFlutterSimulatorBuild env).payload =
      ⟨Status.success, none, none⟩ := by
  unfold runFlutterSimulatorBuild uploadToGoogleDrive
  simp [hb, ha, hu]

/-- Witness for the amended C3 at the concrete failing-upload environment. -/
theorem C3_amended_witness :
    (runFlutterSimulatorBuild envUploadFails).payload =
      ⟨Status.success, none, none⟩ :=
  (C3_amended_publish_failure_reported_as_success envUploadFails
    (by decide) (by decide) (by decide)).2

/-- C4 counterexample: in `release` mode with all signing files present,
    a successful import, a successful release build, and the build product
    present, the pipeline reports success with `output_url` equal to the
    literal string `"local-only"` and never attempts a publication
    (`runFlutterBuild`, src/index.js:168-172, performs no upload) — not the
    durable public URL returned by publication that the claim requires. -/
theorem C4_counterexample :
    hasSigning envAllOk = true ∧
    (signAndBuild envAllOk "release").buildsRun = [BuildKind.signedRelease] ∧
    (signAndBuild envAllOk "release").report.uploadAttempted = false ∧
    (signAndBuild envAllOk "release").report.payload.status = Status.success ∧
    (signAndBuild envAllOk "release").report.payload.outputUrl = some "local-only" := by
  decide

/-- C4 amended: in `release` mode with all three signing files present, a
    successful signing import, a successful signed build, and the build
    product present, the pipeline copies the artifact to the local outputs
    directory and reports success — but it does not publish to the remote
    object store at all, and the reported `output_url` is the placeholder
    string `"local-only"`, not a publication URL (only the simulator path
    uploads to Google Drive). -/
theorem C4_amended_release_success_is_local_only (env : BuildEnv)
    (hs : hasSigning env = true) (hi : signingImport env = none)
    (hb : env.releaseBuildOk = true) (ha : env.releaseAppPresent = true) :
    (signAndBuild env "release").buildsRun = [BuildKind.signedRelease] ∧
    (signAndBuild env "release").report.uploadAttempted = false ∧
    (signAndBuild env "release").report.payload =
      ⟨Status.success, some "local-only", none⟩ := by
  unfold signAndBuild runFlutterBuild
  simp [hs, hi, hb, ha]

/-- Witness for the amended C4 at the all-successful concrete environment. -/
theorem C4_amended_witness :
    (signAndBuild envAllOk "release").report.payload =
      ⟨Status.success, some "local-only", none⟩ :=
  (C4_amended_release_success_is_local_only envAllOk
    (by decide) (by decide) (by decide) (by decide)).2.2

/-! ### Artifact stager: `downloadJobZip` (src/index.js:234-261)

The HTTP world is an assignment of a response (status code and optional
`Location` header) to every URL.  `downloadJobZip`'s inner
`requestAndFollow` re-issues the request against `res.headers.location`
whenever the status code is 301, 302 or 303, with no hop counter of any
kind; we expose its recursion through an explicit step function and a
fuel-indexed driver whose `none` result means "still following redirects
after that many requests". -/

/-- One HTTP response: the status code and the optional `Location` header
    (`res.statusCode` and `res.headers.location` in the source). -/
structure HttpResp where
  statusCode : Nat
  location : Option String
deriving DecidableEq, Repr

/-- The status codes `requestAndFollow` treats as redirects
    (src/index.js:240: `[301, 302, 303].includes(res.statusCode)`). -/
def isRedirect (c : Nat) : Bool :=
  c == 301 || c == 302 || c == 303

/-- Terminal outcomes of `downloadJobZip`: resolve on a 200 body, reject
    with the no-`Location` error, or reject with the non-200 status error. -/
inductive DownloadResult where
  | success
  | noLocation
  | httpError (code : Nat)
deriving DecidableEq, Repr

/-- One iteration of `requestAndFollow` (src/index.js:239-254): on a
    redirect status, follow the `Location` header (left) or reject when it
    is absent; on 200 resolve; on anything else reject with the code. -/
def downloadStep (world : String → HttpResp) (u : String) :
    Sum String DownloadResult :=
  let r := world u
  if isRedirect r.statusCode then
    match r.location with
    | none => Sum.inr DownloadResult.noLocation
    | some next => Sum.inl next
  else if r.statusCode == 200 then Sum.inr DownloadResult.success
  else Sum.inr (DownloadResult.httpError r.statusCode)

/-- `downloadJobZip` driven for at most `fuel` requests.  The source
    recursion is unbounded, so the fuel is not part of the program: a `none`
    result means the source function has neither resolved nor rejected after
    `fuel` requests — it is still chasing redirects. -/
def downloadJobZip (world : String → HttpResp) :
    Nat → String → Option DownloadResult
  | 0, _ => none
  | fuel + 1, u =>
    match downloadStep world u with
    | Sum.inr r => some r
    | Sum.inl next => downloadJobZip world fuel next

/-- A two-URL redirect cycle: `"a"` 302-redirects to `"b"` and `"b"`
    302-redirects back to `"a"`; every other URL serves a 200. -/
def cycWorld : String → HttpResp := fun u =>
  if u == "a" then ⟨302, some "b"⟩
  else if u == "b" then ⟨302, some "a"⟩
  else ⟨200, none⟩

/-- On the cyclic world, the follower never leaves the `a`/`b` cycle:
    for every fuel it is still following redirects from either endpoint. -/
theorem cycWorld_no_result (n : Nat) :
    downloadJobZip cycWorld n "a" = none ∧
    downloadJobZip cycWorld n "b" = none := by
  induction n with
  | zero => exact ⟨rfl, rfl⟩
  | succ k ih =>
    refine ⟨?_, ?_⟩
    · show downloadJobZip cycWorld (k + 1) "a" = none
      unfold downloadJobZip
      have hstep : downloadStep cycWorld "a" = Sum.inl "b" := by decide
      rw [hstep]
      exact ih.2
    · show downloadJobZip cycWorld (k + 1) "b" = none
      unfold downloadJobZip
      have hstep : downloadStep cycWorld "b" = Sum.inl "a" := by decide
      rw [hstep]
      exact ih.1

/-- C5 counterexample: `requestAndFollow` has no hop bound.  On the concrete
    two-URL cycle it follows `"a" → "b" → "a"` forever: after 64 requests it
    has neither resolved nor rejected, and its state ( the current URL )
    after two hops equals its initial state, so it never terminates — the
    claim's bounded-hop failure never occurs. -/
theorem C5_counterexample :
    downloadStep cycWorld "a" = Sum.inl "b" ∧
    downloadStep cycWorld "b" = Sum.inl "a" ∧
    downloadJobZip cycWorld 64 "a" = none := by
  refine ⟨by decide, by decide, (cycWorld_no_result 64).1⟩

/-- C5 amended: the follower re-issues the request against the `Location`
    header on every 301/302/303 with **no** bound on the number of hops.  It
    rejects exactly when a redirect response lacks a `Location` header or
    when a non-redirect response has a status other than 200, and it
    resolves exactly on a 200; on a cyclic redirect chain it never
    terminates (for every number of requests it is still following), so
    there is no hop-bound failure. -/
theorem C5_amended_redirects_unbounded (world : String → HttpResp)
    (u : String) (n : Nat) :
    (isRedirect (world u).statusCode = true → (world u).location = none →
      downloadJobZip world (n + 1) u = some DownloadResult.noLocation) ∧
    (∀ next, isRedirect (world u).statusCode = true →
      (world u).location = some next →
      downloadJobZip world (n + 1) u = downloadJobZip world n next) ∧
    (isRedirect (world u).statusCode = false → (world u).statusCode = 200 →
      downloadJobZip world (n + 1) u = some DownloadResult.success) ∧
    (isRedirect (world u).statusCode = false → (world u).statusCode ≠ 200 →
      downloadJobZip world (n + 1) u =
        some (DownloadResult.httpError (world u).statusCode)) ∧
    downloadJobZip cycWorld n "a" = none := by
  have hsucc : ∀ v, downloadJobZip world (n + 1) v =
      match downloadStep world v with
      | Sum.inr r => some r
      | Sum.inl next => downloadJobZip world n next := fun _ => rfl
  refine ⟨?_, ?_, ?_, ?_, (cycWorld_no_result n).1⟩
  · intro hr hl
    have hstep : downloadStep world u = Sum.inr DownloadResult.noLocation := by
      unfold downloadStep
      simp [hr, hl]
    rw [hsucc u, hstep]
  · intro next hr hl
    have hstep : downloadStep world u = Sum.inl next := by
      unfold downloadStep
      simp [hr, hl]
    rw [hsucc u, hstep]
  · intro hr h200
    have hstep : downloadStep world u = Sum.inr DownloadResult.success := by
      simp [downloadStep, h200, isRedirect]
    rw [hsucc u, hstep]
  · intro hr h200
    have hstep : downloadStep world u =
        Sum.inr (DownloadResult.httpError (world u).statusCode) := by
      unfold downloadStep
      simp [hr, h200]
    rw [hsucc u, hstep]

/-- Witness for the amended C5: a world where `"r"` 301-redirects with no
    `Location` header — one request yields the no-`Location` rejection. -/
theorem C5_amended_witness :
    downloadJobZip (fun _ => ⟨301, none⟩) 3 "r" =
      some DownloadResult.noLocation :=
  (C5_amended_redirects_unbounded (fun _ => ⟨301, none⟩) "r" 2).1
    (by decide) (by decide)

/-! ### Result reporter: `reportResult`
(src/index.js:83-106 and src/unnamed/part_000:186-212)

Each sink's network outcome is fixed by an environment; the translation
records which deliveries were attempted and whether an exception escaped the
function (`await fetch` rejecting outside any `try` block rethrows to the
caller). -/

/-- Network outcomes for the two result sinks: whether the `fetch` to the
    coordinator's result endpoint succeeds, and whether the `fetch` to the
    webhook succeeds, with the error messages carried on failure. -/
structure ReportEnv where
  coordinatorOk : Bool
  coordErrMsg : String
  webhookOk : Bool
  webhookErrMsg : String
deriving DecidableEq, Repr

/-- Observable behaviour of one `reportResult` call: which sinks were
    actually contacted and which exception, if any, escaped the function. -/
structure ReportTrace where
  coordinatorAttempted : Bool
  webhookAttempted : Bool
  threw : Option String
deriving DecidableEq, Repr

/-- `reportResult` in the main agent (src/index.js:83-106): the coordinator
    `fetch` (line 86) is awaited with **no** surrounding `try` block, so its
    rejection escapes the function and nothing after it runs — in particular
    the webhook block is skipped.  The webhook `fetch` (lines 94-105) is
    inside `try/catch`, so its failure is logged and swallowed. -/
def reportResult (env : ReportEnv) (webhookUrl : Option String) : ReportTrace :=
  if !env.coordinatorOk then
    { coordinatorAttempted := true, webhookAttempted := false
      threw := some env.coordErrMsg }
  else
    match webhookUrl with
    | none => { coordinatorAttempted := true, webhookAttempted := false, threw := none }
    | some _ => { coordinatorAttempted := true, webhookAttempted := true, threw := none }

/-- `reportResult` in the part_000 variant (src/unnamed/part_000:186-212):
    the coordinator `fetch` is wrapped in its own `try/catch` that logs with
    the correct `job_id` binding, so the coordinator delivery is attempted
    and its failure never escapes.  The webhook block then attempts its
    `fetch` inside `try`, but both of its log calls (lines 207 and 209) read
    the identifier `jobId`, which is not bound anywhere in that scope (the
    parameter is `job_id`): evaluating `jobId` throws a `ReferenceError`
    before `sendLog` is called — inside the `try` on the success path, where
    the `catch` handler then hits the same `ReferenceError` itself — so in
    every webhook case a `ReferenceError` escapes the function after both
    deliveries were attempted.  With no webhook URL the block is skipped and
    nothing escapes. -/
def reportResultGuarded (_env : ReportEnv) (webhookUrl : Option String) :
    ReportTrace :=
  match webhookUrl with
  | none =>
    { coordinatorAttempted := true
      webhookAttempted := false
      threw := none }
  | some _ =>
    { coordinatorAttempted := true
      webhookAttempted := true
      threw := some "jobId is not defined" }

/-- C6 counterexample: in the main agent, when the coordinator delivery
    fails and a webhook URL is supplied, the exception escapes
    `reportResult` (it is not best-effort) and the webhook delivery is never
    attempted — coordinator failure suppresses the other sink, refuting the
    claim at this concrete input. -/
theorem C6_counterexample :
    (reportResult ⟨false, "ECONNRESET", true, ""⟩ (some "https://hook")).threw
        = some "ECONNRESET" ∧
    (reportResult ⟨false, "ECONNRESET", true, ""⟩ (some "https://hook")).webhookAttempted
        = false := by
  decide

/-- C6 amended: in the main agent the coordinator delivery is always
    attempted first and the webhook delivery is best-effort and never alters
    the coordinator outcome (once the coordinator `fetch` succeeded, nothing
    thrown by the webhook escapes); but the coordinator delivery itself is
    not best-effort: its failure throws past `reportResult` and suppresses
    the webhook attempt.  In the part_000 variant both `fetch` calls are
    guarded, so both deliveries are always attempted and no `fetch` failure
    of either sink affects the other; yet whenever a webhook URL is
    supplied, the webhook block's log calls read the undefined identifier
    `jobId` and a `ReferenceError` escapes the reporter regardless of either
    delivery's outcome — only the no-webhook case returns cleanly.  Neither
    variant satisfies the fully-decoupled no-throw claim. -/
theorem C6_amended_reporter (env : ReportEnv) (w : Option String) :
    (reportResult env w).coordinatorAttempted = true ∧
    (env.coordinatorOk = true →
      (reportResult env w).threw = none ∧
      (reportResult env w).webhookAttempted = w.isSome) ∧
    (env.coordinatorOk = false →
      (reportResult env w).threw = some env.coordErrMsg ∧
      (reportResult env w).webhookAttempted = false) ∧
    ((reportResultGuarded env w).coordinatorAttempted = true ∧
      (reportResultGuarded env w).webhookAttempted = w.isSome ∧
      (w = none → (reportResultGuarded env w).threw = none) ∧
      (∀ u, w = some u →
        (reportResultGuarded env w).threw = some "jobId is not defined")) := by
  refine ⟨?_, ?_, ?_, ?_, ?_, ?_, ?_⟩
  · unfold reportResult
    cases h : env.coordinatorOk <;> cases w <;> simp
  · intro hc
    unfold reportResult
    cases w <;> simp [hc]
  · intro hc
    unfold reportResult
    simp [hc]
  · cases w <;> rfl
  · cases w <;> rfl
  · intro hw
    subst hw
    rfl
  · intro u hw
    subst hw
    rfl

/-- Witness for the amended C6 at concrete inputs: with a healthy
    coordinator and a webhook supplied, the main agent's reporter attempts
    both sinks and nothing escapes it, while the part_000 reporter lets the
    `ReferenceError` escape. -/
theorem C6_amended_witness :
    (reportResult ⟨true, "", false, "hookfail"⟩ (some "https://hook")).threw = none ∧
    (reportResult ⟨true, "", false, "hookfail"⟩ (some "https://hook")).webhookAttempted
        = true ∧
    (reportResultGuarded ⟨true, "", false, "hookfail"⟩ (some "https://hook")).threw
        = some "jobId is not defined" := by
  have h := (C6_amended_reporter ⟨true, "", false, "hookfail"⟩
    (some "https://hook")).2.1 (by decide)
  have hg := (C6_amended_reporter ⟨true, "", false, "hookfail"⟩
    (some "https://hook")).2.2.2.2.2.2 "https://hook" rfl
  exact ⟨h.1, h.2, hg⟩

/-! ### Job poller scheduling
(src/index.js:341-344 and src/unnamed/part_000:358-362)

The main agent schedules a single `fetchJobFromAPI` call one second after
startup; the part_000 variant runs `setInterval(fetchJobFromAPI, 10000)`.
In both, `fetchJobFromAPI` consults no in-flight flag of any kind: when a
poll returns a job, the asynchronous download/build chain is started
unconditionally, and the function returns to the event loop long before the
build's `exec` callback fires.  We model the observable scheduling decisions
as a transition system: a tick event (one firing of `fetchJobFromAPI`
whose poll returned the given job, if any) and a finish event (a job's
result reaching `reportResult`). -/

/-- Poller state: the identifiers of jobs whose processing chains have been
    started and have not yet reached a terminal result (most recent first). -/
structure PollerState where
  running : List String
deriving DecidableEq, Repr

/-- Scheduling events: a poll tick that returned `none` (no job) or
    `some j`, and the completion of job `j`. -/
inductive PollerEvent where
  | tick (job : Option String)
  | finish (j : String)
deriving DecidableEq, Repr

/-- One scheduling step.  A tick carrying a job starts it unconditionally —
    `fetchJobFromAPI` (src/index.js:263-323) checks only `job.job_id` and
    `job.zip_url` and never consults whether an earlier job is still
    running; a tick with no job is a no-op; a finish removes the job. -/
def pollerStep (s : PollerState) : PollerEvent → PollerState
  | PollerEvent.tick none => s
  | PollerEvent.tick (some j) => ⟨j :: s.running⟩
  | PollerEvent.finish j => ⟨s.running.erase j⟩

/-- Run the scheduler over a sequence of events from the idle state. -/
def pollerRun (evs : List PollerEvent) : PollerState :=
  evs.foldl pollerStep ⟨[]⟩

/-- C7 counterexample: two consecutive poll ticks each returning a job, with
    no finish in between (the first build is still running), leave **two**
    jobs in flight — the interval timer of part_000 (and nothing in
    index.js, which polls only once and has no interval at all) waits for a
    terminal result, so toolchain invocations of distinct jobs can overlap,
    refuting the claim on this concrete trace. -/
theorem C7_counterexample :
    (pollerRun [PollerEvent.tick (some "job1"), PollerEvent.tick (some "job2")]).running
      = ["job2", "job1"] ∧
    (pollerRun [PollerEvent.tick (some "job1"), PollerEvent.tick (some "job2")]).running.length
      = 2 := by
  decide

/-- C7 amended: the poller starts a job whenever a poll tick returns one,
    regardless of the set of jobs already in flight — the tick handler's
    effect on the running set is `j :: running` unconditionally, so after a
    tick that delivers a job while another is unfinished, both are running
    simultaneously; nothing serializes jobs (the main agent additionally
    polls only once, one second after startup, rather than on an interval). -/
theorem C7_amended_no_serialization (s : PollerState) (j : String) :
    (pollerStep s (PollerEvent.tick (some j))).running = j :: s.running ∧
    (pollerStep s (PollerEvent.tick (some j))).running.length
      = s.running.length + 1 := by
  constructor
  · rfl
  · simp [pollerStep]

/-! ### Project-root resolution: `findFlutterProjectRoot` (src/index.js:325-337)

An extracted tree is a finite list of named entries, each a file or a
subdirectory with its own entries (mirroring what `fs.readdirSync` /
`fs.statSync(...).isDirectory()` observe, in the order `readdirSync`
returns).  Paths are lists of path components, rooted at the extraction
directory. -/

mutual

/-- One directory entry: a plain file or a subdirectory with its children,
    in `readdirSync` order. -/
inductive Entry where
  | file : String → Entry
  | dir : String → Entries → Entry

/-- The ordered entry list of one directory. -/
inductive Entries where
  | nil : Entries
  | cons : Entry → Entries → Entries

end

/-- The name of an entry, as it appears in `fs.readdirSync`'s result. -/
def entryName : Entry → String
  | Entry.file n => n
  | Entry.dir n _ => n

/-- `entries.includes("pubspec.yaml")` (src/index.js:327): some entry of the
    directory is named exactly `pubspec.yaml` (file or directory — the
    source never checks the entry's type here). -/
def hasMarker : Entries → Bool
  | Entries.nil => false
  | Entries.cons e rest => entryName e == "pubspec.yaml" || hasMarker rest

mutual

/-- Handling of one entry in `findFlutterProjectRoot`'s loop
    (src/index.js:329-335): files are skipped (the `isDirectory` guard);
    for a subdirectory the function recurses — check the subdirectory's own
    entries for the marker, else continue into its entries. -/
def searchEntry (p : List String) : Entry → Option (List String)
  | Entry.file _ => none
  | Entry.dir n cs =>
    if hasMarker cs then some (p ++ [n]) else searchEntries (p ++ [n]) cs

/-- The `for (const entry of entries)` loop (src/index.js:329-335): return
    the first non-null recursive result, else null. -/
def searchEntries (p : List String) : Entries → Option (List String)
  | Entries.nil => none
  | Entries.cons e rest =>
    match searchEntry p e with
    | some r => some r
    | none => searchEntries p rest

end

/-- `findFlutterProjectRoot(startPath)` (src/index.js:325-337): if the
    directory's own entries include `pubspec.yaml`, return `startPath`;
    otherwise scan the entries in order, recursing into subdirectories,
    and return the first hit or null. -/
def findFlutterProjectRoot (p : List String) (es : Entries) :
    Option (List String) :=
  if hasMarker es then some p else searchEntries p es

mutual

/-- All directories below (and including) the entry that contain the marker
    file, as absolute paths, in depth-first pre-order. -/
def markerDirsEntry (p : List String) : Entry → List (List String)
  | Entry.file _ => []
  | Entry.dir n cs =>
    (if hasMarker cs then [p ++ [n]] else []) ++ markerDirsEntries (p ++ [n]) cs

/-- All marker-containing directories reachable through an entry list, in
    depth-first pre-order (entries in `readdirSync` order). -/
def markerDirsEntries (p : List String) : Entries → List (List String)
  | Entries.nil => []
  | Entries.cons e rest => markerDirsEntry p e ++ markerDirsEntries p rest

end

/-- All directories of the tree rooted at `p` (the root included) that
    contain the marker file, in depth-first pre-order. -/
def markerDirs (p : List String) (es : Entries) : List (List String) :=
  (if hasMarker es then [p] else []) ++ markerDirsEntries p es

mutual

theorem searchEntry_eq_head (p : List String) (e : Entry) :
    searchEntry p e = (markerDirsEntry p e).head? := by
  cases e with
  | file n => simp [searchEntry, markerDirsEntry]
  | dir n cs =>
    by_cases h : hasMarker cs
    · simp [searchEntry, markerDirsEntry, h]
    · simp [searchEntry, markerDirsEntry, h,
        searchEntries_eq_head (p ++ [n]) cs]

theorem searchEntries_eq_head (p : List String) (es : Entries) :
    searchEntries p es = (markerDirsEntries p es).head? := by
  cases es with
  | nil => simp [searchEntries, markerDirsEntries]
  | cons e rest =>
    rw [searchEntries, markerDirsEntries]
    rw [searchEntry_eq_head p e, searchEntries_eq_head p rest]
    cases h : (markerDirsEntry p e).head? with
    | some r =>
      rcases List.head?_eq_some_iff.mp h with ⟨t, ht⟩
      simp [ht]
    | none =>
      have : markerDirsEntry p e = [] := List.head?_eq_none_iff.mp h
      simp [this]

end

/-- The DFS result is the head of the pre-order list of all
    marker-containing directories. -/
theorem findFlutterProjectRoot_eq_head (p : List String) (es : Entries) :
    findFlutterProjectRoot p es = (markerDirs p es).head? := by
  unfold findFlutterProjectRoot markerDirs
  by_cases h : hasMarker es
  · simp [h]
  · simp [h, searchEntries_eq_head p es]

/-- C8: `findFlutterProjectRoot` performs a depth-first search in the
    deterministic entry order and returns the first marker-containing
    directory of the pre-order traversal; it returns null exactly when no
    directory anywhere in the tree contains `pubspec.yaml`, and when exactly
    one directory contains it, that directory is returned regardless of its
    nesting depth. -/
theorem C8_resolveProjectRoot (p : List String) (es : Entries) :
    findFlutterProjectRoot p es = (markerDirs p es).head? ∧
    (findFlutterProjectRoot p es = none ↔ markerDirs p es = []) ∧
    (∀ d, markerDirs p es = [d] → findFlutterProjectRoot p es = some d) := by
  refine ⟨findFlutterProjectRoot_eq_head p es, ?_, ?_⟩
  · rw [findFlutterProjectRoot_eq_head p es]
    exact List.head?_eq_none_iff
  · intro d hd
    rw [findFlutterProjectRoot_eq_head p es, hd]
    rfl

/-- A sample extracted tree: a README at the top and the marker nested two
    directories deep inside `app/flutterproj`. -/
def sampleTree : Entries :=
  Entries.cons (Entry.file "README.md")
    (Entries.cons
      (Entry.dir "app"
        (Entries.cons
          (Entry.dir "flutterproj"
            (Entries.cons (Entry.file "pubspec.yaml") Entries.nil))
          Entries.nil))
      Entries.nil)

/-- Witness for C8 on the sample tree: exactly one directory holds the
    marker, and the search returns it. -/
theorem C8_witness :
    markerDirs [] sampleTree = [["app", "flutterproj"]] ∧
    findFlutterProjectRoot [] sampleTree = some ["app", "flutterproj"] := by
  have hm : markerDirs [] sampleTree = [["app", "flutterproj"]] := by
    simp [markerDirs, markerDirsEntries, markerDirsEntry, sampleTree,
      hasMarker, entryName]
  exact ⟨hm, (C8_resolveProjectRoot [] sampleTree).2.2 ["app", "flutterproj"] hm⟩

/-! ### Termination of `findFlutterProjectRoot` (C10)

The source recursion is unbounded (JavaScript imposes no structural bound);
`findRootFuel` exposes it with an explicit bound on the depth of nested
`findFlutterProjectRoot` calls, `none` meaning the call depth was exhausted
before the function returned.  Because every recursive call descends into a
strict subdirectory, call depth one larger than the tree's directory depth
always suffices, and the bounded run returns exactly the value of the total
function — the recursion terminates on every finite tree. -/

mutual

/-- `findFlutterProjectRoot` with an explicit bound on the nesting depth of
    recursive calls; `none` means the bound was exhausted mid-search. -/
def findRootFuel : Nat → List String → Entries → Option (Option (List String))
  | 0, _, _ => none
  | fuel + 1, p, es =>
    if hasMarker es then some (some p) else findRootFuelGo fuel p es

/-- The entry loop under the call-depth bound: descending into a
    subdirectory spends one level of call depth, exactly as one nested
    `findFlutterProjectRoot(fullPath)` call does in the source. -/
def findRootFuelGo : Nat → List String → Entries → Option (Option (List String))
  | _, _, Entries.nil => some none
  | fuel, p, Entries.cons (Entry.file _) rest => findRootFuelGo fuel p rest
  | fuel, p, Entries.cons (Entry.dir n cs) rest =>
    match findRootFuel fuel (p ++ [n]) cs with
    | none => none
    | some (some r) => some (some r)
    | some none => findRootFuelGo fuel p rest

end

mutual

/-- The directory-nesting depth of one entry: files are flat, a directory is
    one deeper than its contents. -/
def depthEntry : Entry → Nat
  | Entry.file _ => 0
  | Entry.dir _ cs => depthEntries cs + 1

/-- The directory-nesting depth of an entry list. -/
def depthEntries : Entries → Nat
  | Entries.nil => 0
  | Entries.cons e rest => max (depthEntry e) (depthEntries rest)

end

mutual

theorem findRootFuel_complete (fuel : Nat) (p : List String) (es : Entries)
    (h : depthEntries es < fuel) :
    findRootFuel fuel p es = some (findFlutterProjectRoot p es) := by
  match fuel with
  | 0 => omega
  | fuel + 1 =>
    by_cases hm : hasMarker es
    · simp [findRootFuel, findFlutterProjectRoot, hm]
    · rw [findRootFuel, findFlutterProjectRoot]
      simp only [hm, if_false, Bool.false_eq_true]
      exact findRootFuelGo_complete fuel p es (by omega)

theorem findRootFuelGo_complete (fuel : Nat) (p : List String) (es : Entries)
    (h : depthEntries es ≤ fuel) :
    findRootFuelGo fuel p es = some (searchEntries p es) := by
  cases es with
  | nil => simp [findRootFuelGo, searchEntries]
  | cons e rest =>
    have hrest : depthEntries rest ≤ fuel := by
      simp [depthEntries] at h
      omega
    cases e with
    | file n =>
      rw [findRootFuelGo, searchEntries]
      rw [findRootFuelGo_complete fuel p rest hrest]
      rfl
    | dir n cs =>
      have hcs : depthEntries cs < fuel := by
        simp [depthEntries, depthEntry] at h
        omega
      rw [findRootFuelGo, searchEntries]
      rw [findRootFuel_complete fuel (p ++ [n]) cs hcs]
      have hse : searchEntry p (Entry.dir n cs)
          = findFlutterProjectRoot (p ++ [n]) cs := rfl
      rw [hse]
      cases findFlutterProjectRoot (p ++ [n]) cs with
      | none => exact findRootFuelGo_complete fuel p rest hrest
      | some r => rfl

end

/-- C10: `findFlutterProjectRoot` terminates on every finite directory tree:
    every recursive call descends into a strict subdirectory, so call depth
    one larger than the tree's directory-nesting depth always suffices, and
    the depth-bounded run returns (rather than exhausting its bound) with
    exactly the total search result — a directory path or null. -/
theorem C10_terminates (p : List String) (es : Entries) :
    findRootFuel (depthEntries es + 1) p es
      = some (findFlutterProjectRoot p es) :=
  findRootFuel_complete (depthEntries es + 1) p es (Nat.lt_succ_self _)

/-! ### Log relay: `initWebSocket` / `sendLog`
(src/index.js:25-60 and src/unnamed/part_000:126-163)

The relay's observable state is whether the socket is usable
(`socketReady && ws.readyState === OPEN` — the exact guard `sendLog`
evaluates), the pending buffer `logQueue`, and the sequence of payloads
handed to `ws.send` on an open connection (the remote sink, in delivery
order).  Events: a `sendLog` call, the socket's `open` event (whose handler
sets the ready flag, flushes the queue in order with one `ws.send` per
payload, then clears it), and the connection dropping (after which the
`readyState === OPEN` guard fails; in part_000 the `close` handler also
clears `socketReady` and schedules the reconnect that eventually fires
`open` again). -/

/-- Relay state: connection usability, the `logQueue` buffer, and everything
    delivered to the remote sink so far, in delivery order. -/
structure RelayState where
  connected : Bool
  queue : List String
  sink : List String
deriving DecidableEq, Repr

/-- Relay events: a `sendLog msg` call, a successful (re)connect (`open`
    event), and a connection drop. -/
inductive RelayEvent where
  | send (msg : String)
  | sockOpen
  | sockClose
deriving DecidableEq, Repr

/-- One relay transition.  `sendLog` (src/index.js:46-60): deliver directly
    when the socket is usable, else push onto `logQueue`.  The `open`
    handler (src/index.js:28-39): mark ready, send every buffered payload in
    queue order, clear the queue.  A drop makes the usability guard fail. -/
def relayStep (s : RelayState) : RelayEvent → RelayState
  | RelayEvent.send m =>
    if s.connected then { s with sink := s.sink ++ [m] }
    else { s with queue := s.queue ++ [m] }
  | RelayEvent.sockOpen => ⟨true, [], s.sink ++ s.queue⟩
  | RelayEvent.sockClose => { s with connected := false }

/-- Run the relay from the startup state (not yet connected, empty buffer,
    nothing delivered) over a sequence of events. -/
def relayRun (evs : List RelayEvent) : RelayState :=
  evs.foldl relayStep ⟨false, [], []⟩

/-- The messages passed to `sendLog` in an event sequence, in call order. -/
def sentMsgs (evs : List RelayEvent) : List String :=
  evs.foldr
    (fun e acc =>
      match e with
      | RelayEvent.send m => m :: acc
      | _ => acc) []

/-- States in which the connection being usable forces an empty buffer —
    true at startup and preserved by every event, because the buffer grows
    only while disconnected and the `open` handler clears it. -/
def RelayInv (s : RelayState) : Prop :=
  s.connected = true → s.queue = []

theorem relayStep_preserves_inv (s : RelayState) (e : RelayEvent)
    (hs : RelayInv s) : RelayInv (relayStep s e) := by
  unfold RelayInv relayStep at *
  cases e with
  | send m =>
    cases h : s.connected with
    | true => simpa [h] using hs
    | false => simp [h]
  | sockOpen => simp
  | sockClose => simp

/-- Each step appends exactly the event's message (if any) to
    `sink ++ queue`, so that concatenation is always the full append-ordered
    message sequence. -/
theorem relayStep_concat (s : RelayState) (e : RelayEvent)
    (hs : RelayInv s) :
    (relayStep s e).sink ++ (relayStep s e).queue
      = s.sink ++ s.queue ++ sentMsgs [e] := by
  cases e with
  | send m =>
    cases h : s.connected with
    | true => simp [relayStep, sentMsgs, h, hs h]
    | false => simp [relayStep, sentMsgs, h]
  | sockOpen => simp [relayStep, sentMsgs]
  | sockClose => simp [relayStep, sentMsgs]

theorem relayRun_from (s : RelayState) (evs : List RelayEvent)
    (hs : RelayInv s) :
    (evs.foldl relayStep s).sink ++ (evs.foldl relayStep s).queue
      = s.sink ++ s.queue ++ sentMsgs evs ∧
    RelayInv (evs.foldl relayStep s) := by
  induction evs generalizing s with
  | nil => exact ⟨by simp [sentMsgs], hs⟩
  | cons e rest ih =>
    have hstep := relayStep_concat s e hs
    have hinv := relayStep_preserves_inv s e hs
    have h := ih (relayStep s e) hinv
    simp only [List.foldl_cons] at *
    refine ⟨?_, h.2⟩
    rw [h.1, hstep]
    cases e <;> simp [sentMsgs]

/-- C9: the relay never drops a message at enqueue time and never reorders
    or duplicates: after any event sequence, the delivered messages followed
    by the still-buffered ones are exactly the `sendLog` calls in append
    order — and the instant a (re)connect succeeds, the whole buffer has
    been flushed to the sink, so everything sent before that open event has
    been delivered, in original order, with no loss and no duplication. -/
theorem C9_relay_ordered_delivery (evs : List RelayEvent) :
    (relayRun evs).sink ++ (relayRun evs).queue = sentMsgs evs ∧
    (relayRun (evs ++ [RelayEvent.sockOpen])).sink = sentMsgs evs ∧
    (relayRun (evs ++ [RelayEvent.sockOpen])).queue = [] := by
  have hinit : RelayInv (⟨false, [], []⟩ : RelayState) := by
    intro hc
    simp at hc
  have hbase := (relayRun_from ⟨false, [], []⟩ evs hinit).1
  simp only [relayRun] at *
  refine ⟨by simpa using hbase, ?_, ?_⟩
  · rw [List.foldl_append]
    simp only [List.foldl_cons, List.foldl_nil]
    show (relayStep (evs.foldl relayStep ⟨false, [], []⟩) RelayEvent.sockOpen).sink
      = sentMsgs evs
    simp only [relayStep]
    simpa using hbase
  · rw [List.foldl_append]
    simp [relayStep]

end MacBridge
